import Mathlib

/-!
Shallow embedding of the repo_alchemy generic-repository layer: filter
objects (`_filters.py`), the statement builder (`_build.py`), pagination
(`_paginate.py`), the result resolver (`_resolver.py`) and the repository
orchestration (`_repository.py`), together with theorems settling the
specification claims about them.
-/

namespace RepoAlchemy

/-- Calendar date (models Python `datetime.date`). -/
structure Date where
  year : Nat
  month : Nat
  day : Nat
deriving DecidableEq, Repr

/-- Date-time at second granularity (models Python `datetime.datetime`;
the code only ever rewrites hour/minute/second, so seconds suffice). -/
structure DateTime where
  year : Nat
  month : Nat
  day : Nat
  hour : Nat
  minute : Nat
  second : Nat
deriving DecidableEq, Repr

/-- Lexicographic order on date-times, the order the database applies to
timestamp columns. -/
def DateTime.le (a b : DateTime) : Bool :=
  if a.year ≠ b.year then decide (a.year < b.year)
  else if a.month ≠ b.month then decide (a.month < b.month)
  else if a.day ≠ b.day then decide (a.day < b.day)
  else if a.hour ≠ b.hour then decide (a.hour < b.hour)
  else if a.minute ≠ b.minute then decide (a.minute < b.minute)
  else decide (a.second ≤ b.second)

/-- Strict version of `DateTime.le`. -/
def DateTime.lt (a b : DateTime) : Bool :=
  DateTime.le a b && !(DateTime.le b a)

/-- A plain date used where a timestamp is expected is coerced to midnight
of that day (the coercion relational databases apply when comparing a
`date` parameter against a datetime column). -/
def Date.toDateTime (d : Date) : DateTime :=
  ⟨d.year, d.month, d.day, 0, 0, 0⟩

/-- Dynamically-typed scalar Python value as it appears in bound
parameters and row cells. -/
inductive PyValue where
  | none
  | bool (b : Bool)
  | int (n : Int)
  | str (s : String)
  | dt (t : DateTime)
  | date (d : Date)
deriving DecidableEq, Repr

/-- Python object passed to a filter field typed `Any`: a scalar or a
collection of scalars. -/
inductive PyObj where
  | val (v : PyValue)
  | coll (vs : List PyValue)
deriving DecidableEq, Repr

/-- Python truthiness of a scalar (`bool(v)`): `None`, `False`, `0` and
the empty string are falsy; date/datetime objects are always truthy. -/
def PyValue.truthy : PyValue → Bool
  | .none => false
  | .bool b => b
  | .int n => n != 0
  | .str s => s != ""
  | .dt _ => true
  | .date _ => true

/-- Python truthiness of an object: an empty collection is falsy. -/
def PyObj.truthy : PyObj → Bool
  | .val v => v.truthy
  | .coll vs => !vs.isEmpty

/-- SQL-style `<=` on bound values: defined within one kind, with the
date-to-midnight coercion when a date meets a datetime; incomparable kinds
compare false. -/
def PyValue.le : PyValue → PyValue → Bool
  | .int a, .int b => decide (a ≤ b)
  | .str a, .str b => decide (a ≤ b)
  | .bool a, .bool b => !a || b
  | .dt a, .dt b => DateTime.le a b
  | .date a, .date b => DateTime.le a.toDateTime b.toDateTime
  | .dt a, .date b => DateTime.le a b.toDateTime
  | .date a, .dt b => DateTime.le a.toDateTime b
  | _, _ => false

/-- Strict SQL-style `<` on bound values. -/
def PyValue.lt : PyValue → PyValue → Bool
  | .int a, .int b => decide (a < b)
  | .str a, .str b => decide (a < b)
  | .bool a, .bool b => !a && b
  | .dt a, .dt b => DateTime.lt a b
  | .date a, .date b => DateTime.lt a.toDateTime b.toDateTime
  | .dt a, .date b => DateTime.lt a b.toDateTime
  | .date a, .dt b => DateTime.lt a.toDateTime b
  | _, _ => false

/-- Resolved mapped attribute (models `InstrumentedAttribute`): the owning
table plus the attribute key. -/
structure Attr where
  table : String
  key : String
deriving DecidableEq, Repr

/-- Mapped record type (models a SQLAlchemy model class): a table name and
the attribute names it exposes. -/
structure Model where
  table : String
  fields : List String
deriving DecidableEq, Repr

/-- Error raised by `StatementFilter._get_instrumented_attr` when no
candidate model exposes the requested key; it names the key and the tables
searched (the spec calls this condition `FieldNotFound`). -/
structure FieldNotFound where
  key : String
  tables : List String
deriving DecidableEq, Repr

/-- Key argument of `_get_instrumented_attr`: either a field name or an
already-resolved attribute handle. -/
inductive KeyArg where
  | name (s : String)
  | attr (a : Attr)
deriving DecidableEq, Repr

/-- First candidate model exposing the key, scanned in order (the `for`
loop of `_get_instrumented_attr`). -/
def findAttr (k : String) : List Model → Option Attr
  | [] => Option.none
  | m :: ms => if m.fields.contains k then some ⟨m.table, k⟩ else findAttr k ms

/-- Embeds `StatementFilter._get_instrumented_attr`: extract the name from
an attribute handle, scan the candidates in order, raise `FieldNotFound`
naming the key and all searched tables when nothing matches. -/
def getInstrumentedAttr (models : List Model) (key : KeyArg) :
    Except FieldNotFound Attr :=
  let k := match key with | .name s => s | .attr a => a.key
  match findAttr k models with
  | some a => .ok a
  | Option.none => .error ⟨k, models.map Model.table⟩

/-- Splits a character list at every occurrence of the equal sign. -/
def splitCharsOnEq : List Char → List (List Char)
  | [] => [[]]
  | c :: rest =>
    let r := splitCharsOnEq rest
    if c = '=' then [] :: r
    else
      match r with
      | [] => [[c]]
      | h :: t => (c :: h) :: t

/-- Accumulates the value of a decimal digit string; fails on a
non-digit. -/
def parseNatAux : List Char → Nat → Option Nat
  | [], acc => some acc
  | c :: rest, acc =>
    if c.isDigit then parseNatAux rest (acc * 10 + (c.toNat - 48))
    else Option.none

/-- Parses an optionally negated decimal integer literal. -/
def parseIntChars : List Char → Option Int
  | [] => Option.none
  | c :: rest =>
    if c = Char.ofNat 45 then
      match rest with
      | [] => Option.none
      | _ => (parseNatAux rest 0).map (fun n => -(n : Int))
    else (parseNatAux (c :: rest) 0).map (fun n => (n : Int))

/-- Evaluates a raw SQL text predicate of the shape `lhs=rhs` on integer
literals (the only raw text the code emits is the contradiction `1=-1`);
text that is not of that shape is treated as passing. -/
def evalTextClause (s : String) : Bool :=
  match splitCharsOnEq s.toList with
  | [a, b] =>
    match parseIntChars a, parseIntChars b with
    | some x, some y => decide (x = y)
    | _, _ => true
  | _ => true

/-- Substring containment used to give `LIKE '%v%'` row semantics. -/
def containsSub (s core : String) : Bool :=
  core.isEmpty || decide ((s.splitOn core).length ≥ 2)

/-- Row semantics of a LIKE pattern: the wildcard-wrapped core must occur
in the string value, case-folded when the match ignores case. -/
def likeMatch (v : PyValue) (pat : String) (ignoreCase : Bool) : Bool :=
  match v with
  | .str s =>
    let core := (pat.replace "%" "")
    if ignoreCase then containsSub s.toLower core.toLower
    else containsSub s core
  | _ => false

/-- SQL boolean expression appended to a statement by a filter. -/
inductive Pred where
  | eq (f : Attr) (v : PyObj)
  | lt (f : Attr) (v : PyValue)
  | le (f : Attr) (v : PyValue)
  | gt (f : Attr) (v : PyValue)
  | ge (f : Attr) (v : PyValue)
  | between (f : Attr) (lo hi : PyValue)
  | inList (f : Attr) (vs : List PyValue)
  | like (f : Attr) (pat : String) (ignoreCase negated : Bool)
  | textClause (s : String)
deriving DecidableEq, Repr

/-- Row-level truth of a predicate, for a row given as an assignment of
scalar values to attributes; `between` is inclusive on both ends. -/
def Pred.holds (g : Attr → PyValue) : Pred → Bool
  | .eq f v =>
    match v with
    | .val x => g f == x
    | .coll _ => false
  | .lt f v => PyValue.lt (g f) v
  | .le f v => PyValue.le (g f) v
  | .gt f v => PyValue.lt v (g f)
  | .ge f v => PyValue.le v (g f)
  | .between f lo hi => PyValue.le lo (g f) && PyValue.le (g f) hi
  | .inList f vs => vs.contains (g f)
  | .like f pat ic neg =>
    let r := likeMatch (g f) pat ic
    if neg then !r else r
  | .textClause s => evalTextClause s

/-- Columns a statement selects: all columns of a model, or the rebuilt
`COUNT(model.id)` projection used by pagination. -/
inductive SelectTarget where
  | modelCols (m : Model)
  | countId (m : Model)
deriving DecidableEq, Repr

/-- Sort direction of an ORDER BY term. -/
inductive SortDir where
  | asc
  | desc
deriving DecidableEq, Repr

/-- Immutable SELECT statement value (models sqlalchemy `Select`): WHERE
conjuncts in application order, ORDER BY terms, limit and offset. -/
structure Stmt where
  target : SelectTarget
  whereCs : List Pred
  order : List (Attr × SortDir)
  limit : Option Int
  offset : Option Int
deriving DecidableEq, Repr

/-- Functional update `statement.where(p)`: a new statement with one more
WHERE conjunct. -/
def Stmt.whereAdd (s : Stmt) (p : Pred) : Stmt :=
  { s with whereCs := s.whereCs ++ [p] }

/-- A row satisfies a statement's WHERE clause when every conjunct holds. -/
def Stmt.matchesRow (s : Stmt) (g : Attr → PyValue) : Bool :=
  s.whereCs.all (Pred.holds g)

/-- Base statement `select(model)` produced by `DefaultBuildSql._stmt`. -/
def selectAll (m : Model) : Stmt :=
  ⟨.modelCols m, [], [], Option.none, Option.none⟩

/-- Embeds the `LimitOffset` filter dataclass. -/
structure LimitOffset where
  limit : Int
  offset : Int
deriving DecidableEq, Repr

/-- Embeds `LimitOffset.append_to_statement`: unconditionally applies the
row cap and the skip count. -/
def LimitOffset.append_to_statement (flt : LimitOffset) (statement : Stmt)
    (models : List Model) : Except FieldNotFound Stmt :=
  .ok { statement with limit := some flt.limit, offset := some flt.offset }

/-- Embeds the `OrderBy` filter dataclass (`mapping_to_attr` models the
optional name-to-attribute dict). -/
structure OrderBy where
  field_name : Option String
  sort_order : SortDir := .asc
  mapping_to_attr : Option (List (String × Attr)) := Option.none
deriving DecidableEq, Repr

/-- Embeds `OrderBy.append_to_statement`: skip when the field name is
falsy (None or empty); look the name up in the mapping when the mapping is
truthy and has the key, otherwise resolve across the candidate models;
append the ascending or descending ORDER BY term. -/
def OrderBy.append_to_statement (flt : OrderBy) (statement : Stmt)
    (models : List Model) : Except FieldNotFound Stmt :=
  match flt.field_name with
  | Option.none => .ok statement
  | some fn =>
    if fn = "" then .ok statement
    else
      let resolved : Except FieldNotFound Attr :=
        match flt.mapping_to_attr with
        | some l =>
          if !l.isEmpty then
            match l.lookup fn with
            | some a => .ok a
            | Option.none => getInstrumentedAttr models (.name fn)
          else getInstrumentedAttr models (.name fn)
        | Option.none => getInstrumentedAttr models (.name fn)
      match resolved with
      | .error e => .error e
      | .ok field =>
        match flt.sort_order with
        | .desc => .ok { statement with order := statement.order ++ [(field, .desc)] }
        | .asc => .ok { statement with order := statement.order ++ [(field, .asc)] }

/-- Embeds the `EqFilter` dataclass. -/
structure EqFilter where
  field_name : String
  value : PyObj
deriving DecidableEq, Repr

/-- Embeds `EqFilter.append_to_statement`: skip when the value is falsy
(before any attribute resolution), else resolve and add the equality
predicate. -/
def EqFilter.append_to_statement (flt : EqFilter) (statement : Stmt)
    (models : List Model) : Except FieldNotFound Stmt :=
  if !flt.value.truthy then .ok statement
  else
    match getInstrumentedAttr models (.name flt.field_name) with
    | .error e => .error e
    | .ok field => .ok (statement.whereAdd (.eq field flt.value))

/-- Bound of a `DatesType` value: a datetime, a plain date, or the string
sentinel `"none"` meaning unbounded. -/
inductive DateBound where
  | dtv (t : DateTime)
  | dv (d : Date)
  | noneLit
deriving DecidableEq, Repr

/-- Embeds the `DatesType` dataclass from `_types.py`. -/
structure DatesType where
  min : DateBound := .noneLit
  max : DateBound := .noneLit
deriving DecidableEq, Repr

/-- Embeds the `DatesTypeFilter` dataclass. -/
structure DatesTypeFilter where
  field_name : String
  value : Option DatesType
deriving DecidableEq, Repr

/-- Embeds `DatesTypeFilter._get_min_max`: the `"none"` sentinel becomes
an absent bound; a datetime min is rewritten to hour 0, minute 0, second 0
and a datetime max to hour 23, minute 59, second 59; a plain date is not a
`datetime.datetime` instance, so it passes through unchanged. -/
def DatesTypeFilter.get_min_max (v : DatesType) : Option PyValue × Option PyValue :=
  let mn : Option PyValue :=
    match v.min with
    | .noneLit => Option.none
    | .dtv t => some (PyValue.dt { t with hour := 0, minute := 0, second := 0 })
    | .dv d => some (PyValue.date d)
  let mx : Option PyValue :=
    match v.max with
    | .noneLit => Option.none
    | .dtv t => some (PyValue.dt { t with hour := 23, minute := 59, second := 59 })
    | .dv d => some (PyValue.date d)
  (mn, mx)

/-- Embeds `DatesTypeFilter.append_to_statement`: skip when the whole
value is None; else resolve the field, compute min/max, and add BETWEEN
when both bounds are present, a one-sided `>=` or `<=` when exactly one
is. -/
def DatesTypeFilter.append_to_statement (flt : DatesTypeFilter)
    (statement : Stmt) (models : List Model) : Except FieldNotFound Stmt :=
  match flt.value with
  | Option.none => .ok statement
  | some v =>
    match getInstrumentedAttr models (.name flt.field_name) with
    | .error e => .error e
    | .ok field =>
      match DatesTypeFilter.get_min_max v with
      | (some lo, some hi) => .ok (statement.whereAdd (.between field lo hi))
      | (some lo, Option.none) => .ok (statement.whereAdd (.ge field lo))
      | (Option.none, some hi) => .ok (statement.whereAdd (.le field hi))
      | (Option.none, Option.none) => .ok statement

/-- Embeds the `SearchFilter` dataclass. -/
structure SearchFilter where
  field_name : String
  value : Option String
  ignore_case : Option Bool := some true
  mapping_to_attr : Option Attr := Option.none
deriving DecidableEq, Repr

/-- Embeds `SearchFilter.append_to_statement`: skip when the value is
falsy (None or empty); use the directly supplied attribute when present,
else resolve; add the wildcard-wrapped LIKE predicate, case-insensitive
when `ignore_case` is truthy. -/
def SearchFilter.append_to_statement (flt : SearchFilter) (statement : Stmt)
    (models : List Model) : Except FieldNotFound Stmt :=
  match flt.value with
  | Option.none => .ok statement
  | some v =>
    if v = "" then .ok statement
    else
      let resolved : Except FieldNotFound Attr :=
        match flt.mapping_to_attr with
        | some a => .ok a
        | Option.none => getInstrumentedAttr models (.name flt.field_name)
      match resolved with
      | .error e => .error e
      | .ok field =>
        let ic := match flt.ignore_case with | some b => b | Option.none => false
        .ok (statement.whereAdd (.like field ("%" ++ v ++ "%") ic false))

/-- Embeds the `NotInSearchFilter` subclass: identical skip and resolution
logic, negated LIKE operator. -/
structure NotInSearchFilter where
  field_name : String
  value : Option String
  ignore_case : Option Bool := some true
  mapping_to_attr : Option Attr := Option.none
deriving DecidableEq, Repr

/-- Embeds `append_to_statement` as inherited by `NotInSearchFilter`, with
its overridden NOT LIKE operator. -/
def NotInSearchFilter.append_to_statement (flt : NotInSearchFilter)
    (statement : Stmt) (models : List Model) : Except FieldNotFound Stmt :=
  match flt.value with
  | Option.none => .ok statement
  | some v =>
    if v = "" then .ok statement
    else
      let resolved : Except FieldNotFound Attr :=
        match flt.mapping_to_attr with
        | some a => .ok a
        | Option.none => getInstrumentedAttr models (.name flt.field_name)
      match resolved with
      | .error e => .error e
      | .ok field =>
        let ic := match flt.ignore_case with | some b => b | Option.none => false
        .ok (statement.whereAdd (.like field ("%" ++ v ++ "%") ic true))

/-- Embeds the `InFilter` dataclass. -/
structure InFilter where
  field_name : String
  values : Option (List PyValue)
deriving DecidableEq, Repr

/-- Embeds `InFilter.append_to_statement`: the attribute is resolved
first; None values leave the statement unchanged; an empty collection adds
the raw contradiction `1=-1`; a nonempty collection adds the IN
predicate. -/
def InFilter.append_to_statement (flt : InFilter) (statement : Stmt)
    (models : List Model) : Except FieldNotFound Stmt :=
  match getInstrumentedAttr models (.name flt.field_name) with
  | .error e => .error e
  | .ok field =>
    match flt.values with
    | Option.none => .ok statement
    | some vs =>
      if vs.isEmpty then .ok (statement.whereAdd (.textClause "1=-1"))
      else .ok (statement.whereAdd (.inList field vs))

/-- Embeds the `NotInFilter` dataclass. -/
structure NotInFilter where
  field_name : String
  values : Option (List PyValue)
deriving DecidableEq, Repr

/-- Embeds `NotInFilter.append_to_statement` exactly as written: the
attribute is resolved first; falsy values (None or empty) leave the
statement unchanged; otherwise the code calls `field.in_(self.values)`,
so an IN predicate is added, not a NOT IN one. -/
def NotInFilter.append_to_statement (flt : NotInFilter) (statement : Stmt)
    (models : List Model) : Except FieldNotFound Stmt :=
  match getInstrumentedAttr models (.name flt.field_name) with
  | .error e => .error e
  | .ok field =>
    match flt.values with
    | Option.none => .ok statement
    | some vs =>
      if vs.isEmpty then .ok statement
      else .ok (statement.whereAdd (.inList field vs))

/-- Embeds the `BeforeFilter` dataclass. -/
structure BeforeFilter where
  field_name : String
  value : PyValue
deriving DecidableEq, Repr

/-- Embeds `BeforeFilter.append_to_statement`: the attribute is resolved
first; a non-None value adds the strict `<` predicate. -/
def BeforeFilter.append_to_statement (flt : BeforeFilter) (statement : Stmt)
    (models : List Model) : Except FieldNotFound Stmt :=
  match getInstrumentedAttr models (.name flt.field_name) with
  | .error e => .error e
  | .ok field =>
    if flt.value ≠ PyValue.none then .ok (statement.whereAdd (.lt field flt.value))
    else .ok statement

/-- Embeds the `OnBeforeFilter` dataclass. -/
structure OnBeforeFilter where
  field_name : String
  value : PyValue
deriving DecidableEq, Repr

/-- Embeds `OnBeforeFilter.append_to_statement`: the attribute is resolved
first; a non-None value adds the inclusive `<=` predicate. -/
def OnBeforeFilter.append_to_statement (flt : OnBeforeFilter) (statement : Stmt)
    (models : List Model) : Except FieldNotFound Stmt :=
  match getInstrumentedAttr models (.name flt.field_name) with
  | .error e => .error e
  | .ok field =>
    if flt.value ≠ PyValue.none then .ok (statement.whereAdd (.le field flt.value))
    else .ok statement

/-- Embeds the `AfterFilter` dataclass. -/
structure AfterFilter where
  field_name : String
  value : PyValue
deriving DecidableEq, Repr

/-- Embeds `AfterFilter.append_to_statement`: the attribute is resolved
first; a non-None value adds the strict `>` predicate. -/
def AfterFilter.append_to_statement (flt : AfterFilter) (statement : Stmt)
    (models : List Model) : Except FieldNotFound Stmt :=
  match getInstrumentedAttr models (.name flt.field_name) with
  | .error e => .error e
  | .ok field =>
    if flt.value ≠ PyValue.none then .ok (statement.whereAdd (.gt field flt.value))
    else .ok statement

/-- Embeds the `OnAfterFilter` dataclass. -/
structure OnAfterFilter where
  field_name : String
  value : PyValue
deriving DecidableEq, Repr

/-- Embeds `OnAfterFilter.append_to_statement`: the attribute is resolved
first; a non-None value adds the inclusive `>=` predicate. -/
def OnAfterFilter.append_to_statement (flt : OnAfterFilter) (statement : Stmt)
    (models : List Model) : Except FieldNotFound Stmt :=
  match getInstrumentedAttr models (.name flt.field_name) with
  | .error e => .error e
  | .ok field =>
    if flt.value ≠ PyValue.none then .ok (statement.whereAdd (.ge field flt.value))
    else .ok statement

/-- Closed union of everything the builder accepts: each concrete
`StatementFilter` variant, or a raw boolean expression. -/
inductive Flt where
  | limitOffset (f : LimitOffset)
  | orderBy (f : OrderBy)
  | eqF (f : EqFilter)
  | dates (f : DatesTypeFilter)
  | search (f : SearchFilter)
  | notInSearch (f : NotInSearchFilter)
  | inF (f : InFilter)
  | notInF (f : NotInFilter)
  | before (f : BeforeFilter)
  | onBefore (f : OnBeforeFilter)
  | after (f : AfterFilter)
  | onAfter (f : OnAfterFilter)
  | raw (p : Pred)
deriving DecidableEq, Repr

/-- Dispatch of `append_to_statement` over the filter variants; a raw
expression is handled by `DefaultBuildSql._filter_by_expression`, which
adds it as a WHERE conjunct directly. -/
def Flt.append_to_statement (statement : Stmt) (models : List Model) :
    Flt → Except FieldNotFound Stmt
  | .limitOffset f => f.append_to_statement statement models
  | .orderBy f => f.append_to_statement statement models
  | .eqF f => f.append_to_statement statement models
  | .dates f => f.append_to_statement statement models
  | .search f => f.append_to_statement statement models
  | .notInSearch f => f.append_to_statement statement models
  | .inF f => f.append_to_statement statement models
  | .notInF f => f.append_to_statement statement models
  | .before f => f.append_to_statement statement models
  | .onBefore f => f.append_to_statement statement models
  | .after f => f.append_to_statement statement models
  | .onAfter f => f.append_to_statement statement models
  | .raw p => .ok (statement.whereAdd p)

/-- Embeds `DefaultBuildSql._apply_filters`: fold the filter list
left-to-right over the statement, propagating the first resolution
error. -/
def applyFiltersList (statement : Stmt) (models : List Model) :
    List Flt → Except FieldNotFound Stmt
  | [] => .ok statement
  | f :: fs =>
    match Flt.append_to_statement statement models f with
    | .error e => .error e
    | .ok s => applyFiltersList s models fs

/-- Instantiated statement builder: the base statement and candidate
models returned by `_stmt` (a subclass may override `_stmt`, reusing the
filter application unchanged). -/
structure BuilderInst where
  base : Stmt
  candidates : List Model
deriving DecidableEq, Repr

/-- Embeds `DefaultBuildSql.build`: obtain the base statement and its
candidate models, then apply the filters. -/
def BuilderInst.build (b : BuilderInst) (filters : List Flt) :
    Except FieldNotFound Stmt :=
  applyFiltersList b.base b.candidates filters

/-- Embeds the `DefaultBuildSql` class constructor: `_stmt` returns
`select(model), [model]`. -/
def DefaultBuildSql (m : Model) : BuilderInst :=
  ⟨selectAll m, [m]⟩

/-- Exact ceiling of the integer quotient `a / b` for positive `b`
(models `math.ceil(cnt / limit)`). -/
def ceilOfDiv (a b : Int) : Int :=
  -(Int.ediv (-a) b)

/-- Embeds `DefaultPaginate.paginate`: the page count is the ceiling of
`cnt / limit` when `limit` is positive, and the raw `cnt` otherwise. -/
def DefaultPaginate.paginate (cnt limit : Int) : Int :=
  if limit > 0 then ceilOfDiv cnt limit else cnt

/-- Embeds `LoadPaginate.paginate`: `int(cnt)` is the identity on an
integer count. -/
def LoadPaginate.paginate (cnt : Int) : Int :=
  cnt

/-- Raw result row returned by the session: a scalar entity, a multi-column
tuple row, or the name-keyed mapping the resolver turns a tuple into. -/
inductive Row where
  | entity (id : Int)
  | tupleRow (cols : List (String × PyValue))
  | mappingRow (cols : List (String × PyValue))
deriving DecidableEq, Repr

/-- Normalization of one raw row performed by `DefaultResolver`: a tuple
row becomes its name-keyed mapping, anything else passes through. -/
def normalizeRow : Row → Row
  | .tupleRow cols => .mappingRow cols
  | r => r

/-- A resolver instance: the two methods of the `Resolver` interface. -/
structure ResolverInst where
  processItems : List Row → List Row
  processItem : Option Row → Option Row

/-- Embeds `DefaultResolver`: `process_items` normalizes each row;
`process_item` passes `None` through and normalizes a present row. -/
def DefaultResolver : ResolverInst :=
  ⟨fun items => items.map normalizeRow, fun item => item.map normalizeRow⟩

/-- A paginator instance as the repository uses it: called with the row
count and the page size. -/
def PaginateInst : Type := Int → Int → Int

/-- Session collaborator: executes a statement returning scalar entities
or raw rows, and executes the count statement returning an optional
scalar. -/
structure Session where
  runScalars : Stmt → List Row
  runRows : Stmt → List Row
  runCount : Stmt → Option Int

/-- Mutable state of a `Base` repository: the bound record type and the
three swappable components stored on `self`. -/
structure RepoState where
  model : Model
  builder : BuilderInst
  resolver : ResolverInst
  pag : PaginateInst

/-- A builder override is passed as a class and instantiated with the
repository's model (`builder(self._model)`). -/
def BuilderCls : Type := Model → BuilderInst

/-- Embeds repository construction: fresh default builder, resolver and
paginator bound to the repository's model. -/
def mkRepo (m : Model) : RepoState :=
  ⟨m, DefaultBuildSql m, DefaultResolver, DefaultPaginate.paginate⟩

/-- Builder override step shared by the three query methods: a supplied
class replaces the stored builder, instantiated with the model. -/
def applyBuilderOv (st : RepoState) (bOv : Option BuilderCls) : RepoState :=
  match bOv with
  | some b => { st with builder := b st.model }
  | Option.none => st

/-- Resolver override step: a supplied class replaces the stored
resolver. -/
def applyResolverOv (st : RepoState) (rOv : Option ResolverInst) : RepoState :=
  match rOv with
  | some r => { st with resolver := r }
  | Option.none => st

/-- Paginator override step: a supplied class replaces the stored
paginator. -/
def applyPaginateOv (st : RepoState) (pOv : Option PaginateInst) : RepoState :=
  match pOv with
  | some p => { st with pag := p }
  | Option.none => st

/-- Embeds `Base.get_list`: swap the builder if overridden, build, execute
(scalars or raw rows), swap the resolver if overridden, normalize. A
resolution error propagates before the resolver swap is reached. -/
def Repo.getList (st : RepoState) (sess : Session) (isScalars : Bool)
    (flt : List Flt) (bOv : Option BuilderCls) (rOv : Option ResolverInst) :
    RepoState × Except FieldNotFound (List Row) :=
  let st1 := applyBuilderOv st bOv
  match st1.builder.build flt with
  | .error e => (st1, .error e)
  | .ok statement =>
    let rows := if isScalars then sess.runScalars statement else sess.runRows statement
    let st2 := applyResolverOv st1 rOv
    (st2, .ok (st2.resolver.processItems rows))

/-- Embeds `Base.get_one`: like `get_list` but takes the first row and
normalizes it with `process_item`. -/
def Repo.getOne (st : RepoState) (sess : Session) (isScalars : Bool)
    (flt : List Flt) (bOv : Option BuilderCls) (rOv : Option ResolverInst) :
    RepoState × Except FieldNotFound (Option Row) :=
  let st1 := applyBuilderOv st bOv
  match st1.builder.build flt with
  | .error e => (st1, .error e)
  | .ok statement =>
    let row := if isScalars then (sess.runScalars statement).head?
               else (sess.runRows statement).head?
    let st2 := applyResolverOv st1 rOv
    (st2, .ok (st2.resolver.processItem row))

/-- Count-only statement rebuilt by `get_list_with_paginate`: replace the
selected columns with `COUNT(model.id)` keeping the FROM clauses, drop
ORDER BY, LIMIT and OFFSET; the WHERE clause is kept. -/
def countRebuild (m : Model) (s : Stmt) : Stmt :=
  { target := .countId m, whereCs := s.whereCs, order := [],
    limit := Option.none, offset := Option.none }

/-- One iteration of the limit-extraction loop of
`get_list_with_paginate`: a `LimitOffset` filter overwrites the running
limit, anything else leaves it. -/
def extractLimitStep (acc : Int) : Flt → Int
  | .limitOffset l => l.limit
  | _ => acc

/-- Embeds the limit-extraction loop of `get_list_with_paginate`:
`limit = 30`, then every `LimitOffset` among the filters overwrites it,
so the last one wins. -/
def extractLimit (flt : List Flt) : Int :=
  flt.foldl extractLimitStep 30

/-- Embeds `Base.get_list_with_paginate`: build and execute as `get_list`,
re-issue the rebuilt count statement (`scalar() or 0`), swap resolver and
paginator if overridden, and return the normalized rows with the page
count `paginate(cnt, limit)`. -/
def Repo.getListWithPaginate (st : RepoState) (sess : Session)
    (isScalars : Bool) (flt : List Flt) (bOv : Option BuilderCls)
    (rOv : Option ResolverInst) (pOv : Option PaginateInst) :
    RepoState × Except FieldNotFound (List Row × Int) :=
  let st1 := applyBuilderOv st bOv
  match st1.builder.build flt with
  | .error e => (st1, .error e)
  | .ok statement =>
    let rows := if isScalars then sess.runScalars statement else sess.runRows statement
    let cnt := (sess.runCount (countRebuild st1.model statement)).getD 0
    let st2 := applyResolverOv st1 rOv
    let rows2 := st2.resolver.processItems rows
    let st3 := applyPaginateOv st2 pOv
    (st3, .ok (rows2, st3.pag cnt (extractLimit flt)))

/-- Whether a filter is the `LimitOffset` variant (the `isinstance` test
of the limit-extraction loop). -/
def Flt.isLimitOff : Flt → Bool
  | .limitOffset _ => true
  | _ => false

/-- Concrete record type used to instantiate the theorems. -/
def userModel : Model :=
  ⟨"users", ["id", "name", "status", "created"]⟩

/-- Concrete session used to instantiate the repository theorems. -/
def sessU : Session :=
  ⟨fun _ => [Row.entity 1], fun _ => [Row.tupleRow [("id", PyValue.int 1)]],
   fun _ => some 0⟩

/-- A resolver override distinguishable from the default: it discards
every row. -/
def emptyResolver : ResolverInst :=
  ⟨fun _ => [], fun _ => Option.none⟩

/-- Concrete repository over `userModel` with the default components. -/
def repoU : RepoState := mkRepo userModel

/-- Appending a WHERE conjunct refines row matching conjunctively. -/
theorem matchesRow_whereAdd (s : Stmt) (p : Pred) (g : Attr → PyValue) :
    (s.whereAdd p).matchesRow g = (s.matchesRow g && p.holds g) := by
  simp [Stmt.whereAdd, Stmt.matchesRow, List.all_append]

/-- Scanning a candidate list whose prefix lacks the key finds the
attribute on the first candidate that has it. -/
theorem findAttr_append_first (s : String) (m : Model) :
    ∀ (pre post : List Model), (∀ m2 ∈ pre, m2.fields.contains s = false) →
      m.fields.contains s = true →
      findAttr s (pre ++ m :: post) = some ⟨m.table, s⟩ := by
  intro pre
  induction pre with
  | nil =>
    intro post _ hm
    show findAttr s (m :: post) = some ⟨m.table, s⟩
    unfold findAttr
    rw [if_pos hm]
  | cons hd tl ih =>
    intro post hpre hm
    have hhd : hd.fields.contains s = false := hpre hd (by simp)
    show findAttr s (hd :: (tl ++ m :: post)) = some ⟨m.table, s⟩
    have hne : ¬ hd.fields.contains s = true := by
      rw [hhd]
      decide
    unfold findAttr
    rw [if_neg hne]
    exact ih post (fun m2 h2 => hpre m2 (by simp [h2])) hm

/-- Scanning a candidate list none of whose members has the key finds
nothing. -/
theorem findAttr_eq_none (s : String) :
    ∀ models : List Model, (∀ m ∈ models, m.fields.contains s = false) →
      findAttr s models = Option.none := by
  intro models
  induction models with
  | nil => intro _; rfl
  | cons hd tl ih =>
    intro h
    have hhd : hd.fields.contains s = false := h hd (by simp)
    simp only [findAttr, hhd, Bool.false_eq_true, if_false]
    exact ih (fun m hm => h m (by simp [hm]))

/-- One step of the limit-extraction loop ignores a filter that is not a
`LimitOffset`. -/
theorem extractLimitStep_skip (acc : Int) (hd : Flt)
    (hhd : hd.isLimitOff = false) : extractLimitStep acc hd = acc := by
  cases hd <;> first
    | rfl
    | (simp [Flt.isLimitOff] at hhd)

/-- The limit-extraction fold is constant over a list that contains no
`LimitOffset` filter. -/
theorem extractLimit_foldl_const :
    ∀ (post : List Flt), (post.all fun f => !f.isLimitOff) = true →
      ∀ acc : Int, post.foldl extractLimitStep acc = acc := by
  intro post
  induction post with
  | nil => intro _ acc; rfl
  | cons hd tl ih =>
    intro h acc
    rw [List.all_cons, Bool.and_eq_true] at h
    obtain ⟨h1, h2⟩ := h
    have hhd : hd.isLimitOff = false := by
      cases hv : hd.isLimitOff
      · rfl
      · rw [hv] at h1
        exact absurd h1 (by decide)
    rw [List.foldl_cons, extractLimitStep_skip acc hd hhd]
    exact ih h2 acc

/-- The exact ceiling division agrees with the rational ceiling for a
positive divisor. -/
theorem ceilOfDiv_eq_ceil (a b : Int) (hb : 0 < b) :
    ceilOfDiv a b = ⌈(a : ℚ) / (b : ℚ)⌉ := by
  obtain ⟨n, rfl⟩ : ∃ n : ℕ, b = (n : ℤ) :=
    ⟨b.toNat, (Int.toNat_of_nonneg hb.le).symm⟩
  have hfl := Rat.floor_intCast_div_natCast (-a) n
  have hcast : ((a : ℚ)) / (((n : ℤ) : ℚ)) = -((((-a : ℤ) : ℚ)) / ((n : ℕ) : ℚ)) := by
    push_cast
    ring
  rw [hcast, Int.ceil_neg, hfl]
  rfl

/-- C9: the page-based paginator computes `ceil(count / page_size)` for a
positive page size and returns the raw count for a non-positive one, with
`paginate 95 30 = 4`, `paginate 0 30 = 0`, `paginate 95 0 = 95`; the
load-more paginator is the identity on the count. -/
theorem C9_paginate_spec :
    (∀ cnt limit : Int, 0 < limit →
      DefaultPaginate.paginate cnt limit = ⌈(cnt : ℚ) / (limit : ℚ)⌉)
    ∧ (∀ cnt limit : Int, limit ≤ 0 → DefaultPaginate.paginate cnt limit = cnt)
    ∧ DefaultPaginate.paginate 95 30 = 4
    ∧ DefaultPaginate.paginate 0 30 = 0
    ∧ DefaultPaginate.paginate 95 0 = 95
    ∧ ∀ cnt : Int, LoadPaginate.paginate cnt = cnt := by
  refine ⟨?_, ?_, by decide, by decide, by decide, fun cnt => rfl⟩
  · intro cnt limit h
    rw [DefaultPaginate.paginate, if_pos h]
    exact ceilOfDiv_eq_ceil cnt limit h
  · intro cnt limit h
    rw [DefaultPaginate.paginate, if_neg (by omega)]

/-- Witness for C9 at `cnt = 95, limit = 30` and `cnt = 7, limit = 0`. -/
theorem C9_witness :
    (0 < (30 : Int) ∧ DefaultPaginate.paginate 95 30 = ⌈(95 : ℚ) / (30 : ℚ)⌉)
    ∧ ((0 : Int) ≤ 0 ∧ DefaultPaginate.paginate 7 0 = 7) :=
  ⟨⟨by decide, C9_paginate_spec.1 95 30 (by decide)⟩,
   ⟨le_refl 0, C9_paginate_spec.2.1 7 0 (le_refl 0)⟩⟩

/-- C10: an equality filter whose value is falsy (None, empty string,
zero, empty collection) returns the statement unchanged for every
candidate model list, even one on which the field name does not resolve,
because the truthiness test precedes attribute resolution. -/
theorem C10_eq_falsy_skip :
    (PyObj.truthy (.val .none) = false
      ∧ PyObj.truthy (.val (.str "")) = false
      ∧ PyObj.truthy (.val (.int 0)) = false
      ∧ PyObj.truthy (.coll []) = false)
    ∧ ∀ (statement : Stmt) (models : List Model) (fn : String) (v : PyObj),
        v.truthy = false →
        EqFilter.append_to_statement ⟨fn, v⟩ statement models = .ok statement := by
  refine ⟨by decide, ?_⟩
  intro statement models fn v hv
  rw [EqFilter.append_to_statement]
  simp [hv]

/-- Witness for C10: a falsy equality value on a field that resolves
nowhere is skipped without error. -/
theorem C10_witness :
    PyObj.truthy (.val .none) = false
    ∧ EqFilter.append_to_statement ⟨"missing", .val .none⟩ (selectAll userModel) []
        = .ok (selectAll userModel) :=
  ⟨rfl, C10_eq_falsy_skip.2 (selectAll userModel) [] "missing" (.val .none) rfl⟩

/-- C1: evaluating `NotInFilter.append_to_statement` at field `id` with
the nonempty values `[1]` on the user model shows the code appends an IN
membership predicate, so the row whose `id` is `1` — which the NOT-IN
claim requires to be excluded — satisfies the resulting statement. -/
theorem C1_notin_emits_in :
    NotInFilter.append_to_statement ⟨"id", some [PyValue.int 1]⟩
        (selectAll userModel) [userModel]
      = .ok ((selectAll userModel).whereAdd (.inList ⟨"users", "id"⟩ [PyValue.int 1]))
    ∧ ((selectAll userModel).whereAdd
          (.inList ⟨"users", "id"⟩ [PyValue.int 1])).matchesRow
        (fun a => if a = ⟨"users", "id"⟩ then PyValue.int 1 else PyValue.none)
      = true := by
  constructor
  · rfl
  · decide

/-- Second concrete record type, used to exercise scan order. -/
def postsModel : Model := ⟨"posts", ["pid"]⟩

/-- C4: for an IN filter whose field resolves, `values = None` leaves the
statement unchanged, `values = []` appends the raw contradiction `1=-1`
so the statement matches no row at all, and nonempty values append an IN
membership predicate that conjoins membership with the base statement. -/
theorem C4_in_filter_spec :
    ∀ (statement : Stmt) (models : List Model) (fn : String) (a : Attr),
      getInstrumentedAttr models (.name fn) = .ok a →
      (InFilter.append_to_statement ⟨fn, Option.none⟩ statement models = .ok statement)
      ∧ (InFilter.append_to_statement ⟨fn, some []⟩ statement models
          = .ok (statement.whereAdd (.textClause "1=-1")))
      ∧ (∀ g, (statement.whereAdd (.textClause "1=-1")).matchesRow g = false)
      ∧ (∀ vs : List PyValue, vs ≠ [] →
          InFilter.append_to_statement ⟨fn, some vs⟩ statement models
            = .ok (statement.whereAdd (.inList a vs))
          ∧ ∀ g, (statement.whereAdd (.inList a vs)).matchesRow g
              = (statement.matchesRow g && vs.contains (g a))) := by
  intro statement models fn a h
  refine ⟨?_, ?_, ?_, ?_⟩
  · rw [InFilter.append_to_statement, h]
  · rw [InFilter.append_to_statement, h]
    rfl
  · intro g
    rw [matchesRow_whereAdd]
    rw [show Pred.holds g (.textClause "1=-1") = false from rfl]
    exact Bool.and_false _
  · intro vs hvs
    constructor
    · rw [InFilter.append_to_statement, h]
      cases vs with
      | nil => exact absurd rfl hvs
      | cons x xs => rfl
    · intro g
      rw [matchesRow_whereAdd]
      rfl

/-- Witness for C4 on the user model with field `id`. -/
theorem C4_witness :
    getInstrumentedAttr [userModel] (.name "id") = .ok ⟨"users", "id"⟩
    ∧ InFilter.append_to_statement ⟨"id", some []⟩ (selectAll userModel) [userModel]
        = .ok ((selectAll userModel).whereAdd (.textClause "1=-1"))
    ∧ ([PyValue.int 1] : List PyValue) ≠ []
    ∧ InFilter.append_to_statement ⟨"id", some [PyValue.int 1]⟩
        (selectAll userModel) [userModel]
        = .ok ((selectAll userModel).whereAdd (.inList ⟨"users", "id"⟩ [PyValue.int 1])) := by
  have h : getInstrumentedAttr [userModel] (.name "id") = .ok ⟨"users", "id"⟩ := rfl
  have hne : ([PyValue.int 1] : List PyValue) ≠ [] := by decide
  exact ⟨h,
    (C4_in_filter_spec (selectAll userModel) [userModel] "id" ⟨"users", "id"⟩ h).2.1,
    hne,
    ((C4_in_filter_spec (selectAll userModel) [userModel] "id" ⟨"users", "id"⟩ h).2.2.2
      [PyValue.int 1] hne).1⟩

/-- C5: the range filter with `min = "none"` and `max = date(2024, 6, 1)`
produces, on every statement and candidate list, exactly the statement the
inclusive-before filter with bound `date(2024, 6, 1)` produces — the same
`<=` predicate, and the same error on an unresolvable field. -/
theorem C5_range_min_none_equiv_onbefore :
    ∀ (statement : Stmt) (models : List Model) (fn : String),
      DatesTypeFilter.append_to_statement
          ⟨fn, some ⟨.noneLit, .dv ⟨2024, 6, 1⟩⟩⟩ statement models
        = OnBeforeFilter.append_to_statement
            ⟨fn, .date ⟨2024, 6, 1⟩⟩ statement models := by
  intro statement models fn
  simp only [DatesTypeFilter.append_to_statement, OnBeforeFilter.append_to_statement,
    DatesTypeFilter.get_min_max]
  cases h : getInstrumentedAttr models (.name fn) with
  | error e => simp [h]
  | ok a => simp [h]

/-- C6: the attribute resolver returns the attribute of the first
candidate, in scan order, that exposes the key; it fails with
`FieldNotFound` naming the key and all searched table names when none
does; a key given as an attribute handle is first reduced to its name. -/
theorem C6_attr_resolver_spec :
    ∀ (models : List Model) (s : String),
      (∀ pre (m : Model) post, models = pre ++ m :: post →
        m.fields.contains s = true →
        (∀ m2 ∈ pre, m2.fields.contains s = false) →
        getInstrumentedAttr models (.name s) = .ok ⟨m.table, s⟩)
      ∧ ((∀ m ∈ models, m.fields.contains s = false) →
        getInstrumentedAttr models (.name s) = .error ⟨s, models.map Model.table⟩)
      ∧ (∀ t : String, getInstrumentedAttr models (.attr ⟨t, s⟩)
          = getInstrumentedAttr models (.name s)) := by
  intro models s
  refine ⟨?_, ?_, fun t => rfl⟩
  · intro pre m post hdecomp hm hpre
    subst hdecomp
    simp only [getInstrumentedAttr]
    rw [findAttr_append_first s m pre post hpre hm]
  · intro hnone
    simp only [getInstrumentedAttr]
    rw [findAttr_eq_none s models hnone]

/-- Witness for C6: `id` resolves on the second candidate of
`[posts, users]`; `missing` resolves nowhere and the error names both
tables. -/
theorem C6_witness :
    getInstrumentedAttr [postsModel, userModel] (.name "id") = .ok ⟨"users", "id"⟩
    ∧ getInstrumentedAttr [postsModel, userModel] (.name "missing")
        = .error ⟨"missing", ["posts", "users"]⟩ :=
  ⟨(C6_attr_resolver_spec [postsModel, userModel] "id").1 [postsModel] userModel []
      rfl rfl (by decide),
   (C6_attr_resolver_spec [postsModel, userModel] "missing").2.1 (by decide)⟩

/-- Counterexample to C2 as stated: a `BeforeFilter` with the absent value
`None` still resolves its field first, so on a candidate list where the
field resolves to no attribute it raises instead of returning the
statement unchanged. -/
theorem C2_counterexample :
    BeforeFilter.append_to_statement ⟨"missing", PyValue.none⟩
        (selectAll userModel) []
      = .error ⟨"missing", []⟩
    ∧ BeforeFilter.append_to_statement ⟨"missing", PyValue.none⟩
        (selectAll userModel) []
      ≠ .ok (selectAll userModel) := by
  constructor
  · rfl
  · intro h
    exact Except.noConfusion (by rw [← h] ; rfl : (Except.error ⟨"missing", []⟩ :
      Except FieldNotFound Stmt) = .ok (selectAll userModel))

/-- C2 as amended: an absent value skips the filter and raises no error
for the Eq, Search, NotInSearch, DatesType and OrderBy filters on every
candidate list; for the In, NotIn, Before, OnBefore, After and OnAfter
filters the attribute is resolved first, so the absent value skips the
filter whenever the field name resolves (and only then). -/
theorem C2_absent_value_skip :
    ∀ (statement : Stmt) (models : List Model) (fn : String),
      (∀ v : PyObj, v.truthy = false →
        EqFilter.append_to_statement ⟨fn, v⟩ statement models = .ok statement)
      ∧ (SearchFilter.append_to_statement
          ⟨fn, Option.none, some true, Option.none⟩ statement models = .ok statement)
      ∧ (SearchFilter.append_to_statement
          ⟨fn, some "", some true, Option.none⟩ statement models = .ok statement)
      ∧ (NotInSearchFilter.append_to_statement
          ⟨fn, Option.none, some true, Option.none⟩ statement models = .ok statement)
      ∧ (DatesTypeFilter.append_to_statement
          ⟨fn, Option.none⟩ statement models = .ok statement)
      ∧ (OrderBy.append_to_statement
          ⟨Option.none, .asc, Option.none⟩ statement models = .ok statement)
      ∧ (∀ a : Attr, getInstrumentedAttr models (.name fn) = .ok a →
          (InFilter.append_to_statement ⟨fn, Option.none⟩ statement models
            = .ok statement)
          ∧ (NotInFilter.append_to_statement ⟨fn, Option.none⟩ statement models
            = .ok statement)
          ∧ (NotInFilter.append_to_statement ⟨fn, some []⟩ statement models
            = .ok statement)
          ∧ (BeforeFilter.append_to_statement ⟨fn, PyValue.none⟩ statement models
            = .ok statement)
          ∧ (OnBeforeFilter.append_to_statement ⟨fn, PyValue.none⟩ statement models
            = .ok statement)
          ∧ (AfterFilter.append_to_statement ⟨fn, PyValue.none⟩ statement models
            = .ok statement)
          ∧ (OnAfterFilter.append_to_statement ⟨fn, PyValue.none⟩ statement models
            = .ok statement)) := by
  intro statement models fn
  refine ⟨?_, rfl, rfl, rfl, rfl, rfl, ?_⟩
  · intro v hv
    rw [EqFilter.append_to_statement]
    simp [hv]
  · intro a h
    refine ⟨?_, ?_, ?_, ?_, ?_, ?_, ?_⟩
    · rw [InFilter.append_to_statement, h]
    · rw [NotInFilter.append_to_statement, h]
    · rw [NotInFilter.append_to_statement, h]
      rfl
    · rw [BeforeFilter.append_to_statement, h]
      rfl
    · rw [OnBeforeFilter.append_to_statement, h]
      rfl
    · rw [AfterFilter.append_to_statement, h]
      rfl
    · rw [OnAfterFilter.append_to_statement, h]
      rfl

/-- Witness for C2 as amended: a falsy equality value skips on an empty
candidate list, and an absent Before bound skips once `id` resolves on the
user model. -/
theorem C2_witness :
    EqFilter.append_to_statement ⟨"id", .val .none⟩ (selectAll userModel) []
      = .ok (selectAll userModel)
    ∧ BeforeFilter.append_to_statement ⟨"id", PyValue.none⟩
        (selectAll userModel) [userModel]
      = .ok (selectAll userModel) :=
  ⟨(C2_absent_value_skip (selectAll userModel) [] "id").1 (.val .none) rfl,
   ((C2_absent_value_skip (selectAll userModel) [userModel] "id").2.2.2.2.2.2
      ⟨"users", "id"⟩ rfl).2.2.2.1⟩

/-- Counterexample to C3 as stated: with plain `date(2024, 1, 1)` bounds
the filter performs no day normalization — the appended predicate is
BETWEEN the two unmodified dates — and the in-day row at
2024-01-01T12:00:00, which the claim requires to match, does not satisfy
the resulting statement. -/
theorem C3_counterexample :
    DatesTypeFilter.append_to_statement
        ⟨"created", some ⟨.dv ⟨2024, 1, 1⟩, .dv ⟨2024, 1, 1⟩⟩⟩
        (selectAll userModel) [userModel]
      = .ok ((selectAll userModel).whereAdd
          (.between ⟨"users", "created"⟩ (.date ⟨2024, 1, 1⟩) (.date ⟨2024, 1, 1⟩)))
    ∧ ((selectAll userModel).whereAdd
          (.between ⟨"users", "created"⟩ (.date ⟨2024, 1, 1⟩)
            (.date ⟨2024, 1, 1⟩))).matchesRow
        (fun a => if a = ⟨"users", "created"⟩ then PyValue.dt ⟨2024, 1, 1, 12, 0, 0⟩
                  else PyValue.none)
      = false := by
  constructor
  · rfl
  · decide

/-- C3 as amended: day normalization applies to datetime bounds — with
`min = max = datetime(2024, 1, 1, 0, 0, 0)` the filter appends BETWEEN
2024-01-01T00:00:00 and 2024-01-01T23:59:59, and a row whose datetime
field is `t` matches exactly when the base statement matches and `t` lies
in that closed interval; plain date bounds pass through unnormalized. -/
theorem C3_range_day_normalization :
    ∀ (statement : Stmt) (models : List Model) (fn : String) (a : Attr)
      (g : Attr → PyValue) (t : DateTime),
      getInstrumentedAttr models (.name fn) = .ok a →
      g a = PyValue.dt t →
      DatesTypeFilter.append_to_statement
          ⟨fn, some ⟨.dtv ⟨2024, 1, 1, 0, 0, 0⟩, .dtv ⟨2024, 1, 1, 0, 0, 0⟩⟩⟩
          statement models
        = .ok (statement.whereAdd (.between a (.dt ⟨2024, 1, 1, 0, 0, 0⟩)
            (.dt ⟨2024, 1, 1, 23, 59, 59⟩)))
      ∧ (statement.whereAdd (.between a (.dt ⟨2024, 1, 1, 0, 0, 0⟩)
            (.dt ⟨2024, 1, 1, 23, 59, 59⟩))).matchesRow g
        = (statement.matchesRow g
            && (DateTime.le ⟨2024, 1, 1, 0, 0, 0⟩ t
                && DateTime.le t ⟨2024, 1, 1, 23, 59, 59⟩)) := by
  intro statement models fn a g t h hg
  constructor
  · simp only [DatesTypeFilter.append_to_statement, DatesTypeFilter.get_min_max, h]
  · rw [matchesRow_whereAdd]
    rw [show Pred.holds g (.between a (.dt ⟨2024, 1, 1, 0, 0, 0⟩)
          (.dt ⟨2024, 1, 1, 23, 59, 59⟩))
        = (PyValue.le (.dt ⟨2024, 1, 1, 0, 0, 0⟩) (g a)
            && PyValue.le (g a) (.dt ⟨2024, 1, 1, 23, 59, 59⟩)) from rfl]
    rw [hg]
    rfl

/-- Witness for C3 as amended: on the user model's `created` field, the
noon row 2024-01-01T12:00:00 satisfies the normalized day interval. -/
theorem C3_witness :
    getInstrumentedAttr [userModel] (.name "created") = .ok ⟨"users", "created"⟩
    ∧ DatesTypeFilter.append_to_statement
        ⟨"created", some ⟨.dtv ⟨2024, 1, 1, 0, 0, 0⟩, .dtv ⟨2024, 1, 1, 0, 0, 0⟩⟩⟩
        (selectAll userModel) [userModel]
      = .ok ((selectAll userModel).whereAdd
          (.between ⟨"users", "created"⟩ (.dt ⟨2024, 1, 1, 0, 0, 0⟩)
            (.dt ⟨2024, 1, 1, 23, 59, 59⟩))) := by
  have h : getInstrumentedAttr [userModel] (.name "created")
      = .ok ⟨"users", "created"⟩ := rfl
  exact ⟨h, (C3_range_day_normalization (selectAll userModel) [userModel] "created"
    ⟨"users", "created"⟩
    (fun a => if a = ⟨"users", "created"⟩ then PyValue.dt ⟨2024, 1, 1, 12, 0, 0⟩
              else PyValue.none)
    ⟨2024, 1, 1, 12, 0, 0⟩ h (by decide)).1⟩

/-- Counterexample to C7 as stated: a `get_list` call that supplies a
resolver override but raises `FieldNotFound` while building never reaches
the resolver swap, so the override does not replace the stored component —
the post-call resolver still behaves as the default, not as the
override. -/
theorem C7_counterexample :
    (Repo.getList repoU sessU true [Flt.eqF ⟨"missing", .val (.int 1)⟩]
        Option.none (some emptyResolver)).2
      = .error ⟨"missing", ["users"]⟩
    ∧ (Repo.getList repoU sessU true [Flt.eqF ⟨"missing", .val (.int 1)⟩]
        Option.none (some emptyResolver)).1.resolver.processItems [Row.entity 5]
      = [Row.entity 5]
    ∧ emptyResolver.processItems [Row.entity 5] = [] :=
  ⟨rfl, rfl, rfl⟩

/-- C7 as amended: calls with no overrides leave all three components
unchanged; when a call with overrides completes without a build error, the
supplied builder (instantiated with the repository's model), resolver and
paginator replace the stored components; a later call with no overrides
computes its result with the stored components, so an override persists
into subsequent calls. When the building step raises, the builder override
has already been installed but the resolver and paginator overrides are
not applied. -/
theorem C7_override_persistence :
    ∀ (st : RepoState) (sess : Session) (sc : Bool) (flt : List Flt)
      (b : BuilderCls) (r : ResolverInst) (p : PaginateInst) (statement : Stmt),
      ((Repo.getList st sess sc flt Option.none Option.none).1 = st
        ∧ (Repo.getOne st sess sc flt Option.none Option.none).1 = st
        ∧ (Repo.getListWithPaginate st sess sc flt
            Option.none Option.none Option.none).1 = st)
      ∧ ((b st.model).build flt = .ok statement →
          ((Repo.getList st sess sc flt (some b) (some r)).1
              = { st with builder := b st.model, resolver := r }
            ∧ (Repo.getOne st sess sc flt (some b) (some r)).1
              = { st with builder := b st.model, resolver := r }
            ∧ (Repo.getListWithPaginate st sess sc flt (some b) (some r) (some p)).1
              = { st with builder := b st.model, resolver := r, pag := p }))
      ∧ (st.builder.build flt = .ok statement →
          (Repo.getList st sess sc flt Option.none Option.none).2
            = .ok (st.resolver.processItems
                (if sc then sess.runScalars statement else sess.runRows statement)))
      ∧ ((b st.model).build flt = .ok statement →
          (Repo.getList (Repo.getList st sess sc flt (some b) (some r)).1 sess sc flt
              Option.none Option.none).2
            = .ok (r.processItems
                (if sc then sess.runScalars statement else sess.runRows statement))) := by
  intro st sess sc flt b r p statement
  refine ⟨⟨?_, ?_, ?_⟩, ?_, ?_, ?_⟩
  · cases hb : st.builder.build flt <;>
      simp [Repo.getList, applyBuilderOv, applyResolverOv, hb]
  · cases hb : st.builder.build flt <;>
      simp [Repo.getOne, applyBuilderOv, applyResolverOv, hb]
  · cases hb : st.builder.build flt <;>
      simp [Repo.getListWithPaginate, applyBuilderOv, applyResolverOv,
        applyPaginateOv, hb]
  · intro h
    refine ⟨?_, ?_, ?_⟩
    · simp [Repo.getList, applyBuilderOv, applyResolverOv, h]
    · simp [Repo.getOne, applyBuilderOv, applyResolverOv, h]
    · simp [Repo.getListWithPaginate, applyBuilderOv, applyResolverOv,
        applyPaginateOv, h]
  · intro h
    simp [Repo.getList, applyBuilderOv, applyResolverOv, h]
  · intro h
    simp [Repo.getList, applyBuilderOv, applyResolverOv, h]

/-- Witness for C7 as amended: on the user repository, overriding with a
fresh default builder and the row-discarding resolver installs both, and
the following no-override call resolves its rows through the override. -/
theorem C7_witness :
    ((DefaultBuildSql repoU.model).build [] = .ok (selectAll userModel))
    ∧ (Repo.getList repoU sessU true [] (some DefaultBuildSql)
        (some emptyResolver)).1
      = { repoU with builder := DefaultBuildSql repoU.model, resolver := emptyResolver }
    ∧ (Repo.getList (Repo.getList repoU sessU true [] (some DefaultBuildSql)
          (some emptyResolver)).1 sessU true [] Option.none Option.none).2
      = .ok (emptyResolver.processItems
          (if true then sessU.runScalars (selectAll userModel)
           else sessU.runRows (selectAll userModel))) := by
  have h : (DefaultBuildSql repoU.model).build ([] : List Flt)
      = .ok (selectAll userModel) := rfl
  refine ⟨h, ?_, ?_⟩
  · exact ((C7_override_persistence repoU sessU true [] DefaultBuildSql
      emptyResolver (fun cnt _ => cnt) (selectAll userModel)).2.1 h).1
  · exact (C7_override_persistence repoU sessU true [] DefaultBuildSql
      emptyResolver (fun cnt _ => cnt) (selectAll userModel)).2.2.2 h

/-- C8: the page size handed to the paginator is `extractLimit flt`, the
result of the extraction loop: the successful paginated call returns the
page count computed from it; the extraction yields 30 when no
`LimitOffset` filter is supplied, and the limit of the last `LimitOffset`
when several are. -/
theorem C8_paginate_limit :
    ∀ (st : RepoState) (sess : Session) (flt : List Flt) (statement : Stmt),
      (st.builder.build flt = .ok statement →
        (Repo.getListWithPaginate st sess true flt
            Option.none Option.none Option.none).2
          = .ok (st.resolver.processItems (sess.runScalars statement),
              st.pag ((sess.runCount (countRebuild st.model statement)).getD 0)
                (extractLimit flt)))
      ∧ ((flt.all fun f => !f.isLimitOff) = true → extractLimit flt = 30)
      ∧ (∀ (pre post : List Flt) (l o : Int),
          (post.all fun f => !f.isLimitOff) = true →
          extractLimit (pre ++ Flt.limitOffset ⟨l, o⟩ :: post) = l) := by
  intro st sess flt statement
  refine ⟨?_, ?_, ?_⟩
  · intro h
    simp [Repo.getListWithPaginate, applyBuilderOv, applyResolverOv,
      applyPaginateOv, h]
  · intro h
    exact extractLimit_foldl_const flt h 30
  · intro pre post l o h
    rw [extractLimit, List.foldl_append, List.foldl_cons]
    rw [show extractLimitStep (pre.foldl extractLimitStep 30)
          (Flt.limitOffset ⟨l, o⟩) = l from rfl]
    exact extractLimit_foldl_const post h l

/-- Witness for C8: with the single filter `LimitOffset(limit=10,
offset=0)` the paginated call passes 10 to the paginator, and the
extraction yields 10. -/
theorem C8_witness :
    (repoU.builder.build [Flt.limitOffset ⟨10, 0⟩]
      = .ok ⟨.modelCols userModel, [], [], some 10, some 0⟩)
    ∧ (Repo.getListWithPaginate repoU sessU true [Flt.limitOffset ⟨10, 0⟩]
        Option.none Option.none Option.none).2
      = .ok (repoU.resolver.processItems
            (sessU.runScalars ⟨.modelCols userModel, [], [], some 10, some 0⟩),
          repoU.pag
            ((sessU.runCount (countRebuild repoU.model
                ⟨.modelCols userModel, [], [], some 10, some 0⟩)).getD 0)
            (extractLimit [Flt.limitOffset ⟨10, 0⟩]))
    ∧ extractLimit ([] ++ Flt.limitOffset ⟨10, 0⟩ :: []) = 10 := by
  have h : repoU.builder.build [Flt.limitOffset ⟨10, 0⟩]
      = .ok ⟨.modelCols userModel, [], [], some 10, some 0⟩ := rfl
  exact ⟨h,
    (C8_paginate_limit repoU sessU [Flt.limitOffset ⟨10, 0⟩]
      ⟨.modelCols userModel, [], [], some 10, some 0⟩).1 h,
    (C8_paginate_limit repoU sessU []
      ⟨.modelCols userModel, [], [], Option.none, Option.none⟩).2.2 [] [] 10 0 rfl⟩

end RepoAlchemy
